import Mathlib

/-!
Shallow embedding of the SCML 2021 negotiation agents of this repository:
the `SimpleAgent` / `BetterAgent` / `AdaptiveAgent` / `LearningAgent` stack
from `scml2021/oneshot/team_72/learning_agent.py`, and the reputation filter
of `E3BIUagent` from `scml2021/standard/team_49/agent.py`.

Modelling conventions:
- Python floats are modelled as real numbers; quantities, simulation steps and
  negotiation rounds as integers.
- The buying-side best-price trackers are seeded with `float("inf")` in the
  source; they are modelled as `Option ℝ` where `none` stands for plus
  infinity.  `omin` is Python's `min` of a float and such a value, `oscale`
  multiplies such a value by a (finite, positive) slack factor, and `ole` is
  the order on such values.
- The `ZeroDivisionError` raised by the threshold computation when
  `n_steps == 1` is modelled with `Except Unit`.  A method that can raise
  returns its `Except` result paired with the agent state as left by the
  assignments that executed before the raise (the dynamic dispatch order of
  the Python code is preserved, so an update skipped by a raise is skipped
  here too).
-/

/-- Response type of negmas (the three values the agents use). -/
inductive ResponseType where
  | ACCEPT_OFFER
  | REJECT_OFFER
  | END_NEGOTIATION
  deriving DecidableEq

/-- Slice of the agent-world interface read by the agents. -/
structure AWI where
  current_step : ℤ
  current_exogenous_input_quantity : ℤ
  current_exogenous_output_quantity : ℤ
  my_output_product : ℕ

/-- Slice of a negotiation mechanism interface: unit-price issue bounds,
quantity issue bounds, round budget, and the annotation fields
(product, buyer, seller). -/
structure AMI where
  unit_price_min : ℝ
  unit_price_max : ℝ
  quantity_min : ℤ
  quantity_max : ℤ
  n_steps : ℤ
  product : ℕ
  buyer : String
  seller : String

/-- An outcome tuple (quantity, time, unit_price). -/
structure Offer where
  quantity : ℤ
  time : ℤ
  unit_price : ℝ

/-- Agreement and annotation data of a concluded contract
(`contract.agreement` and `contract.annotation` / mechanism annotation). -/
structure Contract where
  product : ℕ
  buyer : String
  seller : String
  quantity : ℤ
  unit_price : ℝ

/-- Constructor parameters of `LearningAgent` (and `BetterAgent`). -/
structure AgentConfig where
  concession_exponent : ℝ
  acc_price_slack : ℝ
  step_price_slack : ℝ
  opp_price_slack : ℝ
  opp_acc_price_slack : ℝ
  range_slack : ℝ

/-- Mutable state of a `LearningAgent`: the secured quantity, the
within-period global and per-partner best opponent offers, and the
cross-period global and per-partner best accepted prices.  Per-partner
default dictionaries are modelled as total functions whose value at a
never-written key is the seed value. -/
structure AgentState where
  secured : ℤ
  _best_selling : ℝ
  _best_buying : Option ℝ
  _best_acc_selling : ℝ
  _best_acc_buying : Option ℝ
  _best_opp_selling : String → ℝ
  _best_opp_buying : String → Option ℝ
  _best_opp_acc_selling : String → ℝ
  _best_opp_acc_buying : String → Option ℝ

/-- Python `min` of a float and a possibly-infinite float (`none` = plus
infinity, which never wins). -/
def omin (a : ℝ) : Option ℝ → ℝ
  | none => a
  | some b => min a b

/-- Scaling of a possibly-infinite price by a slack factor (infinity scaled
stays infinity). -/
def oscale (p : Option ℝ) (f : ℝ) : Option ℝ := p.map (fun x => x * f)

/-- Order on possibly-infinite prices: `ole a b` says a is at most b, with
`none` = plus infinity. -/
def ole : Option ℝ → Option ℝ → Prop
  | _, none => True
  | none, some _ => False
  | some a, some b => a ≤ b

/-- State after `init` of the full stack: secured quantity 0; selling-side
trackers seeded 0.0, buying-side trackers seeded plus infinity. -/
def init_state : AgentState where
  secured := 0
  _best_selling := 0
  _best_buying := none
  _best_acc_selling := 0
  _best_acc_buying := none
  _best_opp_selling := fun _ => 0
  _best_opp_buying := fun _ => none
  _best_opp_acc_selling := fun _ => 0
  _best_opp_acc_buying := fun _ => none

/-- Period boundary, `LearningAgent.step` chained through its superclasses:
resets the secured quantity and the within-period trackers; the cross-period
accepted-price trackers are untouched. -/
def step_agent (s : AgentState) : AgentState :=
  { s with secured := 0, _best_selling := 0, _best_buying := none,
           _best_opp_selling := fun _ => 0, _best_opp_buying := fun _ => none }

/-- The need tracker `SimpleAgent._needed`: the sum of both exogenous
quantities minus the secured quantity (the negotiator id is unused). -/
def _needed (awi : AWI) (s : AgentState) : ℤ :=
  awi.current_exogenous_input_quantity + awi.current_exogenous_output_quantity - s.secured

/-- Direction test on a product id: `SimpleAgent._is_selling` compares the
negotiated product with the agent's output product. -/
def _is_selling_pid (awi : AWI) (pid : ℕ) : Bool := decide (pid = awi.my_output_product)

/-- Direction test `SimpleAgent._is_selling` on a mechanism interface. -/
def _is_selling (awi : AWI) (ami : AMI) : Bool := _is_selling_pid awi ami.product

/-- Quantity-only response logic `SimpleAgent.respond`. -/
def simple_respond (awi : AWI) (s : AgentState) (offer : Offer) : ResponseType :=
  if _needed awi s ≤ 0 then ResponseType.END_NEGOTIATION
  else if offer.quantity ≤ _needed awi s then ResponseType.ACCEPT_OFFER
  else ResponseType.REJECT_OFFER

/-- Offer construction `SimpleAgent.best_offer` (the mechanism interface is
assumed available, as the claims all concern existing negotiations). -/
def best_offer (awi : AWI) (ami : AMI) (s : AgentState) : Option Offer :=
  if _needed awi s ≤ 0 then none
  else some
    { quantity := max (min (_needed awi s) ami.quantity_max) ami.quantity_min,
      time := awi.current_step,
      unit_price := if _is_selling awi ami then ami.unit_price_max else ami.unit_price_min }

/-- Value of the concession threshold `BetterAgent._th` as a total function
over the reals. -/
noncomputable def _th_val (e : ℝ) (step n_steps : ℤ) : ℝ :=
  (((n_steps : ℝ) - (step : ℝ) - 1) / ((n_steps : ℝ) - 1)) ^ e

/-- Concession threshold `BetterAgent._th`; raises `ZeroDivisionError`
(modelled as `none`) exactly when the denominator `n_steps - 1` is zero. -/
noncomputable def _th (e : ℝ) (step n_steps : ℤ) : Option ℝ :=
  if n_steps - 1 = 0 then none else some (_th_val e step n_steps)

/-- Price interval `LearningAgent._price_range`; candidate lists are folded
left to right exactly as Python's `max`/`min` over the candidate list. -/
noncomputable def _price_range (cfg : AgentConfig) (awi : AWI) (ami : AMI) (s : AgentState) : ℝ × ℝ :=
  let mn := ami.unit_price_min
  let mx := ami.unit_price_max
  if _is_selling awi ami then
    let partner := ami.buyer
    (min (mx * (1 - cfg.range_slack))
      (max (max (max (max mn
        (s._best_selling * (1 - cfg.step_price_slack)))
        (s._best_acc_selling * (1 - cfg.acc_price_slack)))
        (s._best_opp_selling partner * (1 - cfg.opp_price_slack)))
        (s._best_opp_acc_selling partner * (1 - cfg.opp_acc_price_slack))),
     mx)
  else
    let partner := ami.seller
    (mn,
     max (mn * (1 + cfg.range_slack))
      (omin (omin (omin (omin mx
        (oscale s._best_buying (1 + cfg.step_price_slack)))
        (oscale s._best_acc_buying (1 + cfg.acc_price_slack)))
        (oscale (s._best_opp_buying partner) (1 + cfg.opp_price_slack)))
        (oscale (s._best_opp_acc_buying partner) (1 + cfg.opp_acc_price_slack))))

/-- Acceptance predicate `BetterAgent._is_good_price`, dispatching to
`LearningAgent._price_range`; `none` is the raised division error. -/
noncomputable def _is_good_price (cfg : AgentConfig) (awi : AWI) (ami : AMI)
    (s : AgentState) (step : ℤ) (price : ℝ) : Option Bool :=
  let mn := (_price_range cfg awi ami s).1
  let mx := (_price_range cfg awi ami s).2
  match _th cfg.concession_exponent step ami.n_steps with
  | none => none
  | some th =>
    if _is_selling awi ami then some (decide (price - mn ≥ th * (mx - mn)))
    else some (decide (mx - price ≥ th * (mx - mn)))

/-- Proposal target `BetterAgent._find_good_price`, dispatching to
`LearningAgent._price_range`; `none` is the raised division error. -/
noncomputable def _find_good_price (cfg : AgentConfig) (awi : AWI) (ami : AMI)
    (s : AgentState) (step : ℤ) : Option ℝ :=
  let mn := (_price_range cfg awi ami s).1
  let mx := (_price_range cfg awi ami s).2
  match _th cfg.concession_exponent step ami.n_steps with
  | none => none
  | some th =>
    if _is_selling awi ami then some (mn + th * (mx - mn))
    else some (mx - th * (mx - mn))

/-- Response logic `BetterAgent.respond` (price check on top of
`SimpleAgent.respond`); an error is the division error raised inside the
threshold computation. -/
noncomputable def better_respond (cfg : AgentConfig) (awi : AWI) (ami : AMI)
    (s : AgentState) (offer : Offer) (step : ℤ) : Except Unit ResponseType :=
  let response := simple_respond awi s offer
  if response ≠ ResponseType.ACCEPT_OFFER then Except.ok response
  else
    match _is_good_price cfg awi ami s step offer.unit_price with
    | none => Except.error ()
    | some true => Except.ok response
    | some false => Except.ok ResponseType.REJECT_OFFER

/-- State update performed by `AdaptiveAgent.respond` after its super call:
fold the offered price into the global within-period tracker. -/
noncomputable def adaptive_update (awi : AWI) (ami : AMI) (s : AgentState) (up : ℝ) : AgentState :=
  if _is_selling awi ami then { s with _best_selling := max up s._best_selling }
  else { s with _best_buying := some (omin up s._best_buying) }

/-- State update performed by `LearningAgent.respond` after its super call.
Note the source writes `max(up, self._best_selling)` (the global
within-period best, already updated by the super call), not the previous
per-partner value. -/
noncomputable def learning_update (awi : AWI) (ami : AMI) (s : AgentState) (up : ℝ) : AgentState :=
  if _is_selling awi ami then
    { s with _best_opp_selling :=
        Function.update s._best_opp_selling ami.buyer (max up s._best_selling) }
  else
    { s with _best_opp_buying :=
        Function.update s._best_opp_buying ami.seller (some (omin up s._best_buying)) }

/-- Full `LearningAgent.respond`: the response (or raised error) paired with
the state as mutated before any raise.  On success the adaptive update runs
first, then the learning update reads the already-updated global tracker. -/
noncomputable def respond (cfg : AgentConfig) (awi : AWI) (ami : AMI)
    (s : AgentState) (offer : Offer) (step : ℤ) : Except Unit ResponseType × AgentState :=
  match better_respond cfg awi ami s offer step with
  | Except.error e => (Except.error e, s)
  | Except.ok r =>
    (Except.ok r, learning_update awi ami (adaptive_update awi ami s offer.unit_price) offer.unit_price)

/-- Full `BetterAgent.propose` (inherited unchanged by `LearningAgent`),
paired with the state it leaves behind: the method performs no assignment to
any field, so the state component is the input state. -/
noncomputable def propose (cfg : AgentConfig) (awi : AWI) (ami : AMI)
    (s : AgentState) (step : ℤ) : Except Unit (Option Offer) × AgentState :=
  (match best_offer awi ami s with
   | none => Except.ok none
   | some offer =>
     match _find_good_price cfg awi ami s step with
     | none => Except.error ()
     | some p => Except.ok (some { offer with unit_price := p }),
   s)

/-- Success callback `LearningAgent.on_negotiation_success` chained through
`SimpleAgent` (secured update) and the cross-period tracker updates. -/
noncomputable def on_negotiation_success (awi : AWI) (c : Contract) (s : AgentState) : AgentState :=
  let s0 := { s with secured := s.secured + c.quantity }
  if _is_selling_pid awi c.product then
    { s0 with
      _best_acc_selling := max c.unit_price s0._best_acc_selling,
      _best_opp_acc_selling := Function.update s0._best_opp_acc_selling c.buyer
        (max c.unit_price (s0._best_opp_acc_selling c.buyer)) }
  else
    { s0 with
      _best_acc_buying := some (omin c.unit_price s0._best_acc_buying),
      _best_opp_acc_buying := Function.update s0._best_opp_acc_buying c.seller
        (some (omin c.unit_price (s0._best_opp_acc_buying c.seller))) }

/-- Externally driven events that touch the agent state. -/
inductive Event where
  | success : Contract → Event
  | new_period : Event
  | offer_received : AMI → Offer → ℤ → Event

/-- Apply one event to the agent state. -/
noncomputable def apply_event (cfg : AgentConfig) (awi : AWI) (s : AgentState) : Event → AgentState
  | Event.success c => on_negotiation_success awi c s
  | Event.new_period => step_agent s
  | Event.offer_received ami offer step => (respond cfg awi ami s offer step).2

/-- Run a sequence of events over the agent state. -/
noncomputable def run_events (cfg : AgentConfig) (awi : AWI) (s : AgentState)
    (evs : List Event) : AgentState :=
  evs.foldl (apply_event cfg awi) s

/-- Agent type lookup `E3BIUagent.get_agent_type`: the two system agents are
their own type, every other agent's type comes from the world. -/
def get_agent_type (world_type : String → String) (agent_name : String) : String :=
  if agent_name = "BUYER" ∨ agent_name = "SELLER" then agent_name else world_type agent_name

/-- Python slice `ls[-n:]`. -/
def last_slice (ls : List ℝ) (n : ℕ) : List ℝ :=
  if n = 0 then ls else ls.drop (ls.length - n)

/-- Breach test `E3BIUagent.is_breached_last_n_steps`: `reports` maps an
agent id to the breach levels of its published reports in report order
(`none` when the world has published no reports for it). -/
noncomputable def is_breached_last_n_steps (reports : String → Option (List ℝ))
    (agent_id : String) (nsteps : ℕ) : Bool :=
  match reports agent_id with
  | none => false
  | some breach_levels => decide (0 < (last_slice breach_levels nsteps).sum)

/-- Annotation fields of an incoming negotiation request read by
`E3BIUagent.respond_to_negotiation_request`. -/
structure ReqAnnot where
  is_buy : Bool
  buyer : String
  seller : String

/-- Uniqueness test `E3BIUagent.is_agent_unique`: whether some partner on the
relevant side has the agent's own type. -/
def is_agent_unique (world_type : String → String) (type_name : String)
    (my_consumers my_suppliers : List String) (is_buy : Bool) : Bool :=
  if is_buy then my_consumers.any (fun c => get_agent_type world_type c == type_name)
  else my_suppliers.any (fun c => get_agent_type world_type c == type_name)

/-- Request filter `E3BIUagent.respond_to_negotiation_request`;
`super_result` models the negotiator returned by the delegated superclass
call. -/
noncomputable def respond_to_negotiation_request (reports : String → Option (List ℝ))
    (world_type : String → String) (type_name : String)
    (my_consumers my_suppliers : List String) (super_result : Option Unit)
    (ann : ReqAnnot) : Option Unit :=
  let breached_agent_name := if ann.is_buy then ann.buyer else ann.seller
  if is_breached_last_n_steps reports breached_agent_name 25 then none
  else if is_agent_unique world_type type_name my_consumers my_suppliers ann.is_buy
       && !(get_agent_type world_type breached_agent_name == type_name) then none
  else super_result

/-- Example configuration: the source defaults, except a finite
`acc_price_slack` (the default is `float("inf")`) and exponent 1. -/
noncomputable def cfg0 : AgentConfig where
  concession_exponent := 1
  acc_price_slack := 0
  step_price_slack := 0
  opp_price_slack := 0
  opp_acc_price_slack := 0.2
  range_slack := 0.03

/-- Example world view with zero exogenous quantities. -/
def awi0 : AWI where
  current_step := 0
  current_exogenous_input_quantity := 0
  current_exogenous_output_quantity := 0
  my_output_product := 1

/-- Example world view with exogenous input 3 and output 5. -/
def awi35 : AWI := { awi0 with current_exogenous_input_quantity := 3,
                               current_exogenous_output_quantity := 5 }

/-- Example world view with exogenous input 1. -/
def awi_one : AWI := { awi0 with current_exogenous_input_quantity := 1 }

/-- Example world view with exogenous input 5. -/
def awi_five : AWI := { awi0 with current_exogenous_input_quantity := 5 }

/-- Example selling negotiation with degenerate legal price bounds (0, 0). -/
def ami1 : AMI where
  unit_price_min := 0
  unit_price_max := 0
  quantity_min := 0
  quantity_max := 1
  n_steps := 10
  product := 1
  buyer := "B"
  seller := "S"

/-- Example selling negotiation with legal price bounds (10, 20). -/
def ami2 : AMI := { ami1 with unit_price_min := 10, unit_price_max := 20, n_steps := 2 }

/-- Example selling negotiation with a one-round budget. -/
def ami_n1 : AMI := { ami2 with n_steps := 1 }

/-- Example selling negotiation with a zero-round budget. -/
def ami_n0 : AMI := { ami2 with n_steps := 0 }

/-- Example offer of one unit at price 5. -/
def offer_p5 : Offer where
  quantity := 1
  time := 0
  unit_price := 5

/-- Example offer of one unit at price 20. -/
def offer_p20 : Offer := { offer_p5 with unit_price := 20 }

/-- Example offer of two units at price 20. -/
def offer_q2 : Offer := { offer_p20 with quantity := 2 }

/-- Example state whose global within-period selling best is 100. -/
def s_100 : AgentState := { init_state with _best_selling := 100 }

/-- Example report feed: agent A has one report with breach level 1, nobody
else has reports. -/
def reports0 : String → Option (List ℝ) := fun a => if a = "A" then some [1] else none

/-- Example world agent-type table. -/
def world_type0 : String → String := fun _ => "T0"

/-- Example buy-side negotiation request from agent A. -/
def ann0 : ReqAnnot where
  is_buy := true
  buyer := "A"
  seller := "S"

/-- Reflexivity of the possibly-infinite price order. -/
theorem ole_refl (a : Option ℝ) : ole a a := by
  cases a <;> simp [ole]

/-- Transitivity of the possibly-infinite price order. -/
theorem ole_trans {a b c : Option ℝ} (h1 : ole a b) (h2 : ole b c) : ole a c := by
  cases a <;> cases b <;> cases c <;> simp_all [ole]
  exact le_trans h1 h2

/-- Ordering of two states on the cross-period accepted-price memory:
selling bests may only grow, buying bests may only shrink. -/
def acc_le (s t : AgentState) : Prop :=
  s._best_acc_selling ≤ t._best_acc_selling ∧
  (∀ p, s._best_opp_acc_selling p ≤ t._best_opp_acc_selling p) ∧
  ole t._best_acc_buying s._best_acc_buying ∧
  (∀ p, ole (t._best_opp_acc_buying p) (s._best_opp_acc_buying p))

theorem acc_le_refl (s : AgentState) : acc_le s s :=
  ⟨le_refl _, fun _ => le_refl _, ole_refl _, fun _ => ole_refl _⟩

theorem acc_le_trans {s t u : AgentState} (h1 : acc_le s t) (h2 : acc_le t u) : acc_le s u :=
  ⟨le_trans h1.1 h2.1, fun p => le_trans (h1.2.1 p) (h2.2.1 p),
   ole_trans h2.2.2.1 h1.2.2.1, fun p => ole_trans (h2.2.2.2 p) (h1.2.2.2 p)⟩

/-- The respond chain never writes the cross-period accepted-price fields. -/
theorem respond_acc_eq (cfg : AgentConfig) (awi : AWI) (ami : AMI)
    (s : AgentState) (offer : Offer) (step : ℤ) :
    ((respond cfg awi ami s offer step).2)._best_acc_selling = s._best_acc_selling ∧
    ((respond cfg awi ami s offer step).2)._best_opp_acc_selling = s._best_opp_acc_selling ∧
    ((respond cfg awi ami s offer step).2)._best_acc_buying = s._best_acc_buying ∧
    ((respond cfg awi ami s offer step).2)._best_opp_acc_buying = s._best_opp_acc_buying := by
  cases h : better_respond cfg awi ami s offer step with
  | error e => simp [respond, h]
  | ok r =>
    simp only [respond, h]
    unfold learning_update adaptive_update
    split <;> exact ⟨rfl, rfl, rfl, rfl⟩

/-- One success callback only tightens the cross-period memory. -/
theorem success_acc_le (awi : AWI) (c : Contract) (s : AgentState) :
    acc_le s (on_negotiation_success awi c s) := by
  unfold on_negotiation_success acc_le
  split
  case isTrue =>
    refine ⟨le_max_right _ _, fun p => ?_, ole_refl _, fun p => ole_refl _⟩
    by_cases hp : p = c.buyer
    · subst hp; simp [Function.update_same]
    · simp [Function.update_noteq hp]
  case isFalse =>
    refine ⟨le_refl _, fun p => le_refl _, ?_, fun p => ?_⟩
    · cases hb : s._best_acc_buying with
      | none => simp [ole, omin]
      | some b => simp [ole, omin]
    · by_cases hp : p = c.seller
      · subst hp
        simp only [Function.update_same]
        cases hb : s._best_opp_acc_buying c.seller with
        | none => simp [ole, omin]
        | some b => simp [ole, omin]
      · simp [Function.update_noteq hp, ole_refl]

/-- Any single event only tightens the cross-period memory. -/
theorem apply_event_acc_le (cfg : AgentConfig) (awi : AWI) (s : AgentState) (ev : Event) :
    acc_le s (apply_event cfg awi s ev) := by
  cases ev with
  | success c => exact success_acc_le awi c s
  | new_period => exact acc_le_refl _
  | offer_received ami offer step =>
    have h := respond_acc_eq cfg awi ami s offer step
    unfold apply_event
    exact ⟨le_of_eq h.1.symm, fun p => le_of_eq (congrFun h.2.1.symm p),
      h.2.2.1 ▸ ole_refl _, fun p => (congrFun h.2.2.2 p) ▸ ole_refl _⟩

/-- Any event sequence only tightens the cross-period memory. -/
theorem run_events_acc_le (cfg : AgentConfig) (awi : AWI) (evs : List Event) :
    ∀ s : AgentState, acc_le s (run_events cfg awi s evs) := by
  induction evs with
  | nil => exact fun s => acc_le_refl s
  | cons ev rest ih =>
    intro s
    exact acc_le_trans (apply_event_acc_le cfg awi s ev) (ih (apply_event cfg awi s ev))

/-- C2: for every exponent > 0 and total_rounds ≥ 2 the concession threshold
equals ((total_rounds - round_index - 1) / (total_rounds - 1)) ** exponent,
is monotonically non-increasing as the round index increases over
[0, total_rounds - 1], equals 1 at round 0 and 0 at round total_rounds - 1. -/
theorem C2_threshold_concession (e : ℝ) (he : 0 < e) (n : ℤ) (hn : 2 ≤ n) :
    (∀ i : ℤ, _th e i n = some (_th_val e i n)) ∧
    (∀ i j : ℤ, 0 ≤ i → i ≤ j → j ≤ n - 1 → _th_val e j n ≤ _th_val e i n) ∧
    _th_val e 0 n = 1 ∧ _th_val e (n - 1) n = 0 := by
  have hd : (0:ℝ) < (n:ℝ) - 1 := by
    have h2 : (2:ℝ) ≤ (n:ℝ) := by exact_mod_cast hn
    linarith
  refine ⟨?_, ?_, ?_, ?_⟩
  · intro i
    unfold _th
    rw [if_neg (by omega)]
  · intro i j hi hij hj
    unfold _th_val
    have hjr : (j:ℝ) ≤ (n:ℝ) - 1 := by
      have : (j:ℝ) ≤ ((n - 1 : ℤ):ℝ) := by exact_mod_cast hj
      push_cast at this
      linarith
    have hijr : (i:ℝ) ≤ (j:ℝ) := by exact_mod_cast hij
    apply Real.rpow_le_rpow
    · apply div_nonneg _ (le_of_lt hd)
      linarith
    · rw [div_le_div_iff₀ hd hd]
      nlinarith
    · exact le_of_lt he
  · unfold _th_val
    rw [show ((n:ℝ) - ((0:ℤ):ℝ) - 1) = (n:ℝ) - 1 by push_cast; ring,
        div_self (ne_of_gt hd), Real.one_rpow]
  · unfold _th_val
    rw [show ((n:ℝ) - (((n - 1):ℤ):ℝ) - 1) = 0 by push_cast; ring,
        zero_div, Real.zero_rpow (ne_of_gt he)]

/-- Witness for C2 at exponent 1 and a two-round budget. -/
theorem C2_threshold_concession_witness :
    (0:ℝ) < 1 ∧ (2:ℤ) ≤ 2 ∧
    ((∀ i : ℤ, _th 1 i 2 = some (_th_val 1 i 2)) ∧
     (∀ i j : ℤ, 0 ≤ i → i ≤ j → j ≤ 2 - 1 → _th_val 1 j 2 ≤ _th_val 1 i 2) ∧
     _th_val 1 0 2 = 1 ∧ _th_val 1 (2 - 1) 2 = 0) :=
  ⟨one_pos, le_refl 2, C2_threshold_concession 1 one_pos 2 (le_refl 2)⟩

/-- C5: across every sequence of negotiation-success events, period
boundaries and respond calls, the cross-period best-accepted-price memory is
monotone and never reset: the selling bests (global and per partner) never
decrease, the buying bests never increase. -/
theorem C5_cross_period_memory_monotone (cfg : AgentConfig) (awi : AWI)
    (s : AgentState) (evs : List Event) :
    s._best_acc_selling ≤ (run_events cfg awi s evs)._best_acc_selling ∧
    (∀ p, s._best_opp_acc_selling p ≤ (run_events cfg awi s evs)._best_opp_acc_selling p) ∧
    ole (run_events cfg awi s evs)._best_acc_buying s._best_acc_buying ∧
    (∀ p, ole ((run_events cfg awi s evs)._best_opp_acc_buying p) (s._best_opp_acc_buying p)) :=
  run_events_acc_le cfg awi evs s

/-- C6 counterexample: with exogenous input 3 and output 5 the need tracker
returns 8 = 3 + 5 at period start whatever the direction, which is neither
the input quantity alone nor the output quantity alone. -/
theorem C6_counterexample :
    _needed awi35 (step_agent init_state) = 8 ∧
    _needed awi35 (step_agent init_state) ≠ awi35.current_exogenous_input_quantity ∧
    _needed awi35 (step_agent init_state) ≠ awi35.current_exogenous_output_quantity := by
  refine ⟨?_, ?_, ?_⟩ <;> simp [_needed, step_agent, awi35, awi0, init_state]

/-- C6 amended: at period start the need tracker returns the sum of the input
and output exogenous quantities, independently of the direction of the
negotiation. -/
theorem C6_amended_period_start_need (awi : AWI) (s : AgentState) :
    _needed awi (step_agent s) =
      awi.current_exogenous_input_quantity + awi.current_exogenous_output_quantity := by
  simp [_needed, step_agent]

/-- C7: whenever the remaining need is at most 0, propose returns no offer
and respond returns END_NEGOTIATION for every incoming offer, before any
price computation (the statement holds for every round budget, including the
budget 1 on which the price computation would raise). -/
theorem C7_no_need_terminates (cfg : AgentConfig) (awi : AWI) (ami : AMI)
    (s : AgentState) (offer : Offer) (step : ℤ) (h : _needed awi s ≤ 0) :
    (propose cfg awi ami s step).1 = Except.ok none ∧
    (respond cfg awi ami s offer step).1 = Except.ok ResponseType.END_NEGOTIATION := by
  have hb : best_offer awi ami s = none := by
    unfold best_offer; rw [if_pos h]
  have hs : simple_respond awi s offer = ResponseType.END_NEGOTIATION := by
    unfold simple_respond; rw [if_pos h]
  have hbr : better_respond cfg awi ami s offer step = Except.ok ResponseType.END_NEGOTIATION := by
    simp [better_respond, hs]
  exact ⟨by simp [propose, hb], by simp [respond, hbr]⟩

/-- Witness for C7: zero exogenous need, one-round budget. -/
theorem C7_no_need_terminates_witness :
    _needed awi0 init_state ≤ 0 ∧
    ((propose cfg0 awi0 ami_n1 init_state 0).1 = Except.ok none ∧
     (respond cfg0 awi0 ami_n1 init_state offer_p5 0).1 = Except.ok ResponseType.END_NEGOTIATION) := by
  have h : _needed awi0 init_state ≤ 0 := by norm_num [_needed, awi0, init_state]
  exact ⟨h, C7_no_need_terminates cfg0 awi0 ami_n1 init_state offer_p5 0 h⟩

/-- C9: propose is read-only on the agent state: the state it leaves behind
is the state it was given, on every field (need tracker and all best-price
memories, the per-partner ones observed as total maps with their
direction-specific seed defaults). -/
theorem C9_propose_read_only (cfg : AgentConfig) (awi : AWI) (ami : AMI)
    (s : AgentState) (step : ℤ) :
    (propose cfg awi ami s step).2 = s := rfl

/-- C8 counterexample: with a round budget of 1 a respond whose offered
quantity exceeds the remaining need returns REJECT_OFFER (a value, not an
error), and with a round budget of 0 even the threshold path divides by
-1 and returns a value; so total_rounds ≤ 1 does not always fail. -/
theorem C8_counterexample :
    ami_n1.n_steps = 1 ∧
    (respond cfg0 awi_one ami_n1 init_state offer_q2 0).1 = Except.ok ResponseType.REJECT_OFFER ∧
    ami_n0.n_steps = 0 ∧
    (respond cfg0 awi_one ami_n0 init_state offer_p20 0).1 = Except.ok ResponseType.ACCEPT_OFFER := by
  refine ⟨rfl, ?_, rfl, ?_⟩
  · have hs : simple_respond awi_one init_state offer_q2 = ResponseType.REJECT_OFFER := by
      norm_num [simple_respond, _needed, awi_one, awi0, init_state, offer_q2, offer_p20, offer_p5]
    have hbr : better_respond cfg0 awi_one ami_n1 init_state offer_q2 0 =
        Except.ok ResponseType.REJECT_OFFER := by
      simp [better_respond, hs]
    simp [respond, hbr]
  · have hs : simple_respond awi_one init_state offer_p20 = ResponseType.ACCEPT_OFFER := by
      norm_num [simple_respond, _needed, awi_one, awi0, init_state, offer_p20, offer_p5]
    have hpr : _price_range cfg0 awi_one ami_n0 init_state = (10, 20) := by
      norm_num [_price_range, _is_selling, _is_selling_pid, cfg0, awi_one, awi0, ami_n0, ami2,
        ami1, init_state, min_def, max_def]
    have hth : _th cfg0.concession_exponent 0 ami_n0.n_steps = some 1 := by
      norm_num [_th, _th_val, cfg0, ami_n0, ami2, ami1, Real.rpow_one]
    have hgp : _is_good_price cfg0 awi_one ami_n0 init_state 0 offer_p20.unit_price =
        some true := by
      rw [_is_good_price, hth, hpr]
      norm_num [_is_selling, _is_selling_pid, awi_one, awi0, ami_n0, ami2, ami1,
        offer_p20, offer_p5]
    have hbr : better_respond cfg0 awi_one ami_n0 init_state offer_p20 0 =
        Except.ok ResponseType.ACCEPT_OFFER := by
      simp [better_respond, hs, hgp]
    simp [respond, hbr]

/-- C8 amended: when total_rounds is exactly 1 and the operation reaches the
threshold computation (propose with positive remaining need; respond with
positive remaining need and offered quantity within the need), it fails with
the division-by-zero error rather than returning a value, and all stored
memory is left unchanged.  Paths short-circuited by the need and quantity
checks, and budgets other than 1, return normally. -/
theorem C8_amended_threshold_div_zero (cfg : AgentConfig) (awi : AWI) (ami : AMI)
    (s : AgentState) (offer : Offer) (step : ℤ)
    (hn : ami.n_steps = 1) (hneed : 0 < _needed awi s) :
    ((propose cfg awi ami s step).1 = Except.error () ∧ (propose cfg awi ami s step).2 = s) ∧
    (offer.quantity ≤ _needed awi s →
      (respond cfg awi ami s offer step).1 = Except.error () ∧
      (respond cfg awi ami s offer step).2 = s) := by
  have hth : _th cfg.concession_exponent step ami.n_steps = none := by
    unfold _th; rw [hn]; simp
  have hfg : _find_good_price cfg awi ami s step = none := by
    simp only [_find_good_price, hth]
  have hgp : _is_good_price cfg awi ami s step offer.unit_price = none := by
    simp only [_is_good_price, hth]
  refine ⟨⟨?_, rfl⟩, fun hq => ?_⟩
  · cases hb : best_offer awi ami s with
    | none =>
      exfalso
      rw [best_offer, if_neg (not_le.mpr hneed)] at hb
      exact Option.some_ne_none _ hb
    | some o => simp [propose, hb, hfg]
  · have hs1 : simple_respond awi s offer = ResponseType.ACCEPT_OFFER := by
      rw [simple_respond, if_neg (not_le.mpr hneed), if_pos hq]
    have hbr : better_respond cfg awi ami s offer step = Except.error () := by
      simp [better_respond, hs1, hgp]
    rw [respond, hbr]
    exact ⟨rfl, rfl⟩

/-- Witness for C8 amended: round budget 1, remaining need 1, offered
quantity 1. -/
theorem C8_amended_threshold_div_zero_witness :
    ami_n1.n_steps = 1 ∧ 0 < _needed awi_one init_state ∧
    (((propose cfg0 awi_one ami_n1 init_state 0).1 = Except.error () ∧
      (propose cfg0 awi_one ami_n1 init_state 0).2 = init_state) ∧
     (offer_p20.quantity ≤ _needed awi_one init_state →
      (respond cfg0 awi_one ami_n1 init_state offer_p20 0).1 = Except.error () ∧
      (respond cfg0 awi_one ami_n1 init_state offer_p20 0).2 = init_state)) := by
  have hneed : 0 < _needed awi_one init_state := by
    norm_num [_needed, awi_one, awi0, init_state]
  exact ⟨rfl, hneed, C8_amended_threshold_div_zero cfg0 awi_one ami_n1 init_state offer_p20 0 rfl hneed⟩

/-- C1 counterexample: on a SELLING respond call with offered price 5 from
partner B, previous per-partner best 0, but global within-period best 100,
the per-partner memory is set to 100 — not to max(5, 0) = 5 as claimed. -/
theorem C1_counterexample :
    ((respond cfg0 awi0 ami1 s_100 offer_p5 0).2)._best_opp_selling "B" = 100 ∧
    max offer_p5.unit_price (s_100._best_opp_selling "B") = 5 := by
  have hs : simple_respond awi0 s_100 offer_p5 = ResponseType.END_NEGOTIATION := by
    norm_num [simple_respond, _needed, awi0, s_100, init_state]
  have hbr : better_respond cfg0 awi0 ami1 s_100 offer_p5 0 =
      Except.ok ResponseType.END_NEGOTIATION := by
    simp [better_respond, hs]
  constructor
  · simp only [respond, hbr]
    simp [learning_update, adaptive_update, _is_selling, _is_selling_pid, awi0, ami1,
      s_100, init_state, offer_p5, Function.update_same]
    norm_num [max_def]
  · norm_num [offer_p5, s_100, init_state, max_def]

/-- C1 amended: on every completed respond call the per-partner within-period
memory is set to the max (selling) / min (buying) of the offered price and
the GLOBAL within-period best — which the same call has already folded the
offered price into — not of the offered price and the previous per-partner
value. -/
theorem C1_amended_respond_opp_update (cfg : AgentConfig) (awi : AWI) (ami : AMI)
    (s : AgentState) (offer : Offer) (step : ℤ)
    (h : (respond cfg awi ami s offer step).1 ≠ Except.error ()) :
    (_is_selling awi ami = true →
      ((respond cfg awi ami s offer step).2)._best_opp_selling ami.buyer
        = max offer.unit_price (max offer.unit_price s._best_selling)) ∧
    (_is_selling awi ami = false →
      ((respond cfg awi ami s offer step).2)._best_opp_buying ami.seller
        = some (omin offer.unit_price (some (omin offer.unit_price s._best_buying)))) := by
  cases hbr : better_respond cfg awi ami s offer step with
  | error e =>
    exfalso
    apply h
    cases e
    simp [respond, hbr]
  | ok r =>
    constructor
    · intro hsel
      simp [respond, hbr, learning_update, adaptive_update, hsel, Function.update_same]
    · intro hsel
      simp [respond, hbr, learning_update, adaptive_update, hsel, Function.update_same]

/-- Witness for C1 amended at the concrete counterexample input. -/
theorem C1_amended_respond_opp_update_witness :
    (respond cfg0 awi0 ami1 s_100 offer_p5 0).1 ≠ Except.error () ∧
    ((_is_selling awi0 ami1 = true →
      ((respond cfg0 awi0 ami1 s_100 offer_p5 0).2)._best_opp_selling ami1.buyer
        = max offer_p5.unit_price (max offer_p5.unit_price s_100._best_selling)) ∧
     (_is_selling awi0 ami1 = false →
      ((respond cfg0 awi0 ami1 s_100 offer_p5 0).2)._best_opp_buying ami1.seller
        = some (omin offer_p5.unit_price (some (omin offer_p5.unit_price s_100._best_buying))))) := by
  have hs : simple_respond awi0 s_100 offer_p5 = ResponseType.END_NEGOTIATION := by
    norm_num [simple_respond, _needed, awi0, s_100, init_state]
  have hbr : better_respond cfg0 awi0 ami1 s_100 offer_p5 0 =
      Except.ok ResponseType.END_NEGOTIATION := by
    simp [better_respond, hs]
  have h : (respond cfg0 awi0 ami1 s_100 offer_p5 0).1 ≠ Except.error () := by
    simp [respond, hbr]
  exact ⟨h, C1_amended_respond_opp_update cfg0 awi0 ami1 s_100 offer_p5 0 h⟩

/-- C3 counterexample: with degenerate legal bounds (0, 0), range_slack 0.03
and the initial memory state, the SELLING interval is (0, 0): it collapses
to a single point although legal_min ≤ legal_max and range_slack > 0. -/
theorem C3_counterexample :
    ami1.unit_price_min ≤ ami1.unit_price_max ∧ 0 < cfg0.range_slack ∧
    ¬ ((_price_range cfg0 awi0 ami1 init_state).1 < (_price_range cfg0 awi0 ami1 init_state).2) := by
  have hpr : _price_range cfg0 awi0 ami1 init_state = (0, 0) := by
    norm_num [_price_range, _is_selling, _is_selling_pid, cfg0, awi0, ami1, init_state,
      min_def, max_def]
  refine ⟨by norm_num [ami1], by norm_num [cfg0], ?_⟩
  rw [hpr]
  norm_num

/-- C3 amended: if legal_min ≤ legal_max, range_slack > 0 and the
counterpart-favorable legal bound is positive (legal_max > 0 when SELLING,
legal_min > 0 when BUYING), then the interval satisfies low < high — for
every partner and every state of the price memories. -/
theorem C3_amended_interval_positive_bound (cfg : AgentConfig) (awi : AWI) (ami : AMI)
    (s : AgentState)
    (hle : ami.unit_price_min ≤ ami.unit_price_max) (hrs : 0 < cfg.range_slack)
    (hpos : (_is_selling awi ami = true → 0 < ami.unit_price_max) ∧
            (_is_selling awi ami = false → 0 < ami.unit_price_min)) :
    (_price_range cfg awi ami s).1 < (_price_range cfg awi ami s).2 := by
  by_cases hsel : _is_selling awi ami = true
  · have hmx : 0 < ami.unit_price_max := hpos.1 hsel
    simp only [_price_range, hsel, if_true]
    refine lt_of_le_of_lt (min_le_left _ _) ?_
    nlinarith
  · rw [Bool.not_eq_true] at hsel
    have hmn : 0 < ami.unit_price_min := hpos.2 hsel
    simp only [_price_range, hsel, Bool.false_eq_true, if_false]
    refine lt_of_lt_of_le ?_ (le_max_left _ _)
    nlinarith

/-- Witness for C3 amended: SELLING with legal bounds (10, 20). -/
theorem C3_amended_interval_positive_bound_witness :
    ami2.unit_price_min ≤ ami2.unit_price_max ∧ 0 < cfg0.range_slack ∧
    (_price_range cfg0 awi0 ami2 init_state).1 < (_price_range cfg0 awi0 ami2 init_state).2 := by
  refine ⟨by norm_num [ami2, ami1], by norm_num [cfg0], ?_⟩
  exact C3_amended_interval_positive_bound cfg0 awi0 ami2 init_state
    (by norm_num [ami2, ami1]) (by norm_num [cfg0])
    ⟨fun _ => by norm_num [ami2, ami1], fun _ => by norm_num [ami2, ami1]⟩

/-- C4: with positive remaining need, an incoming offer whose quantity is
within the need and whose unit price equals the current round's proposal
target (over the same interval and round) is accepted by respond. -/
theorem C4_accept_at_proposal_target (cfg : AgentConfig) (awi : AWI) (ami : AMI)
    (s : AgentState) (offer : Offer) (step : ℤ)
    (hneed : 0 < _needed awi s)
    (hqty : offer.quantity ≤ _needed awi s)
    (hprice : _find_good_price cfg awi ami s step = some offer.unit_price) :
    (respond cfg awi ami s offer step).1 = Except.ok ResponseType.ACCEPT_OFFER := by
  have hs1 : simple_respond awi s offer = ResponseType.ACCEPT_OFFER := by
    rw [simple_respond, if_neg (not_le.mpr hneed), if_pos hqty]
  cases hth : _th cfg.concession_exponent step ami.n_steps with
  | none =>
    exfalso
    simp only [_find_good_price, hth] at hprice
    exact Option.noConfusion hprice
  | some th =>
    simp only [_find_good_price, hth] at hprice
    have hgp : _is_good_price cfg awi ami s step offer.unit_price = some true := by
      simp only [_is_good_price, hth]
      by_cases hsel : _is_selling awi ami = true
      · rw [if_pos hsel] at hprice ⊢
        refine congrArg some (decide_eq_true ?_)
        have hp := (Option.some_inj.mp hprice).symm
        rw [hp]
        linarith
      · rw [if_neg hsel] at hprice ⊢
        refine congrArg some (decide_eq_true ?_)
        have hp := (Option.some_inj.mp hprice).symm
        rw [hp]
        linarith
    have hbr : better_respond cfg awi ami s offer step =
        Except.ok ResponseType.ACCEPT_OFFER := by
      simp [better_respond, hs1, hgp]
    simp [respond, hbr]

/-- Witness for C4: SELLING over bounds (10, 20), two-round budget at round
0, remaining need 5, incoming offer of quantity 1 at the target price 20. -/
theorem C4_accept_at_proposal_target_witness :
    0 < _needed awi_five init_state ∧ offer_p20.quantity ≤ _needed awi_five init_state ∧
    _find_good_price cfg0 awi_five ami2 init_state 0 = some offer_p20.unit_price ∧
    (respond cfg0 awi_five ami2 init_state offer_p20 0).1 = Except.ok ResponseType.ACCEPT_OFFER := by
  have h1 : 0 < _needed awi_five init_state := by
    norm_num [_needed, awi_five, awi0, init_state]
  have h2 : offer_p20.quantity ≤ _needed awi_five init_state := by
    norm_num [_needed, awi_five, awi0, init_state, offer_p20, offer_p5]
  have h3 : _find_good_price cfg0 awi_five ami2 init_state 0 = some offer_p20.unit_price := by
    have hpr : _price_range cfg0 awi_five ami2 init_state = (10, 20) := by
      norm_num [_price_range, _is_selling, _is_selling_pid, cfg0, awi_five, awi0, ami2, ami1,
        init_state, min_def, max_def]
    have hth : _th cfg0.concession_exponent 0 ami2.n_steps = some 1 := by
      norm_num [_th, _th_val, cfg0, ami2, ami1, Real.rpow_one]
    simp only [_find_good_price, hth, hpr]
    norm_num [_is_selling, _is_selling_pid, awi_five, awi0, ami2, ami1, offer_p20, offer_p5]
  exact ⟨h1, h2, h3,
    C4_accept_at_proposal_target cfg0 awi_five ami2 init_state offer_p20 0 h1 h2 h3⟩

/-- C10: the reputation-filtering variant declines (returns none) every
negotiation request whose counterpart has positive total breach level over
its last 25 reported steps, and a partner with no published reports is never
flagged by the breach rule. -/
theorem C10_breach_filter (reports : String → Option (List ℝ))
    (world_type : String → String) (type_name : String)
    (my_consumers my_suppliers : List String) (super_result : Option Unit)
    (ann : ReqAnnot) :
    (∀ ls, reports (if ann.is_buy then ann.buyer else ann.seller) = some ls →
      0 < (last_slice ls 25).sum →
      respond_to_negotiation_request reports world_type type_name my_consumers
        my_suppliers super_result ann = none) ∧
    (∀ a, reports a = none → is_breached_last_n_steps reports a 25 = false) := by
  constructor
  · intro ls hls hsum
    have hbr : is_breached_last_n_steps reports
        (if ann.is_buy then ann.buyer else ann.seller) 25 = true := by
      simp only [is_breached_last_n_steps, hls]
      exact decide_eq_true hsum
    simp only [respond_to_negotiation_request]
    rw [if_pos hbr]
  · intro a ha
    simp only [is_breached_last_n_steps, ha]

/-- Witness for C10: agent A has one report with breach level 1 and is
declined; agent Z has no reports and is not flagged. -/
theorem C10_breach_filter_witness :
    respond_to_negotiation_request reports0 world_type0 "T1" [] [] (some ()) ann0 = none ∧
    is_breached_last_n_steps reports0 "Z" 25 = false := by
  constructor
  · apply (C10_breach_filter reports0 world_type0 "T1" [] [] (some ()) ann0).1 [1]
    · simp [reports0, ann0]
    · simp [last_slice]
  · exact (C10_breach_filter reports0 world_type0 "T1" [] [] (some ()) ann0).2 "Z"
      (by simp [reports0])
